import Mathlib

/-!
Shallow embedding of `app.py` (generative 3D poster, single-file streamlit app).

Modelling conventions:
* Python floats are idealised as exact rationals `ℚ`; trigonometric geometry
  lives in `ℝ` with `Real.cos` / `Real.sin` / `Real.pi`.
* The two process-wide pseudo-random generators (`random` and `np.random`)
  are modelled as a state `RNG` holding two draw streams `ℕ → ℚ`; each draw
  pops the head of the corresponding stream.  `random.seed(s)` /
  `np.random.seed(s)` replace the streams by `pyGen s` / `npGen s`, where
  `pyGen npGen : ℤ → ℕ → ℚ` abstract the two seeded generator algorithms and
  are passed as explicit parameters.  A stream of a real generator always
  produces values in `[0,1)`; theorems that need this take it as the
  hypothesis `streamBounded`.
* `random.uniform a b` is `a + (b-a)*u` (its CPython definition) and
  `random.choice l` is modelled as one draw mapped to an index below
  `l.length`.
* Hex colour strings (`"#RRGGBB"`) are abstracted to their parsed triples
  `int(hex,16)/255 ∈ [0,1]`; colours are `ℚ` triples.
* `matplotlib` drawing is out of scope; the drawn data (centres, radii,
  outlines, rotation angles, colours, alphas, title colour) is collected in
  `Layer` / `Poster` records, in source order.
-/

/-- An rgb colour: a triple of rational channel values. -/
def Color : Type := ℚ × ℚ × ℚ

instance : DecidableEq Color := by unfold Color; infer_instance

/-- The process-wide random state: the remaining draw stream of the Python
`random` module and of `np.random`. -/
structure RNG where
  py : ℕ → ℚ
  np : ℕ → ℚ

/-- Drop the first `k` draws of the Python stream. -/
def RNG.shiftPy (s : RNG) (k : ℕ) : RNG := ⟨fun n => s.py (n + k), s.np⟩

/-- Drop the first `k` draws of the numpy stream. -/
def RNG.shiftNp (s : RNG) (k : ℕ) : RNG := ⟨s.py, fun n => s.np (n + k)⟩

/-- A draw stream of a real generator: every value is in `[0,1)`. -/
def streamBounded (f : ℕ → ℚ) : Prop := ∀ n, 0 ≤ f n ∧ f n < 1

/-- Both streams of the state produce values in `[0,1)`. -/
def RNG.Bounded (s : RNG) : Prop := streamBounded s.py ∧ streamBounded s.np

/-- `random.random()`: pop one Python draw. -/
def pyRand (s : RNG) : ℚ × RNG := (s.py 0, s.shiftPy 1)

/-- `random.uniform(a, b)`: `a + (b-a)*random.random()`. -/
def pyUniform (a b : ℚ) (s : RNG) : ℚ × RNG := (a + (b - a) * s.py 0, s.shiftPy 1)

/-- `random.choice(l)`: one draw mapped to an index below `l.length`. -/
def pyChoice (l : List Color) (s : RNG) : Color × RNG :=
  (l.getD (Nat.floor (s.py 0 * l.length)) (0, 0, 0), s.shiftPy 1)

/-- `np.random.rand(n)`: the next `n` numpy draws. -/
def npRand (n : ℕ) (s : RNG) : List ℚ × RNG :=
  ((List.range n).map (fun k => s.np k), s.shiftNp n)

/-- Utility of `app.py` line 9-11: perceptual luminance of an rgb triple. -/
def luminance (rgb : Color) : ℚ :=
  (299/1000) * rgb.1 + (587/1000) * rgb.2.1 + (114/1000) * rgb.2.2

/-- A list comprehension `[draw() for _ in range(k)]` consuming random state. -/
def drawColors (k : ℕ) (f : RNG → Color × RNG) (s : RNG) : List Color × RNG :=
  match k with
  | 0 => ([], s)
  | k + 1 =>
    let c := f s
    let rest := drawColors k f c.2
    (c.1 :: rest.1, rest.2)

/-- One pastel colour: `(0.6+0.4*random(), 0.6+0.4*random(), 0.6+0.4*random())`. -/
def pastelDraw (s : RNG) : Color × RNG :=
  ((3/5 + 2/5 * s.py 0, 3/5 + 2/5 * s.py 1, 3/5 + 2/5 * s.py 2), s.shiftPy 3)

/-- One neon colour: `(uniform(0.5,1), uniform(0,1), uniform(0.5,1))`. -/
def neonDraw (s : RNG) : Color × RNG :=
  ((1/2 + 1/2 * s.py 0, 0 + 1 * s.py 1, 1/2 + 1/2 * s.py 2), s.shiftPy 3)

/-- One monochrome colour: `(base+0.1*random(),)*3` for the fixed `base`. -/
def monoDraw (base : ℚ) (s : RNG) : Color × RNG :=
  ((base + 1/10 * s.py 0, base + 1/10 * s.py 0, base + 1/10 * s.py 0), s.shiftPy 1)

/-- One themed colour: `random.choice(tones)`. -/
def choiceDraw (tones : List Color) (s : RNG) : Color × RNG := pyChoice tones s

/-- One default colour: `(random(), random(), random())`. -/
def defaultDraw (s : RNG) : Color × RNG :=
  ((s.py 0, s.py 1, s.py 2), s.shiftPy 3)

/-- The curated `earth_tones` list of `app.py`. -/
def earth_tones : List Color :=
  [(42/100, 26/100, 15/100), (55/100, 47/100, 37/100), (62/100, 74/100, 55/100),
   (84/100, 78/100, 58/100), (40/100, 55/100, 30/100)]

/-- The curated `ocean_tones` list of `app.py`. -/
def ocean_tones : List Color :=
  [(0, 3/10, 5/10), (1/10, 6/10, 8/10), (2/10, 8/10, 9/10),
   (0, 5/10, 4/10), (4/10, 9/10, 1)]

/-- The curated `sunset_tones` list of `app.py`. -/
def sunset_tones : List Color :=
  [(1, 5/10, 0), (1, 2/10, 3/10), (8/10, 3/10, 6/10),
   (6/10, 2/10, 8/10), (9/10, 7/10, 3/10)]

/-- The curated `cyber_colors` list of `app.py`. -/
def cyber_colors : List Color :=
  [(1, 0, 8/10), (0, 1, 1), (2/10, 2/10, 1),
   (1, 8/10, 1/10), (1/10, 0, 1/10)]

/-- `random_palette` of `app.py` lines 14-48: a list of `k` colours for the
given style tag, consuming the Python random stream. -/
def random_palette (style : String) (k : ℕ) (s : RNG) : List Color × RNG :=
  if style = "pastel" then
    drawColors k pastelDraw s
  else if style = "neon" then
    drawColors k neonDraw s
  else if style = "monochrome" then
    let b := pyRand s
    drawColors k (monoDraw b.1) b.2
  else if style = "earth" then
    drawColors k (choiceDraw earth_tones) s
  else if style = "ocean" then
    drawColors k (choiceDraw ocean_tones) s
  else if style = "sunset" then
    drawColors k (choiceDraw sunset_tones) s
  else if style = "cyberpunk" then
    drawColors k (choiceDraw cyber_colors) s
  else
    drawColors k defaultDraw s

/-- Adjustment of `app.py` lines 121-124: if the luminance contrast between
background and requested title colour is below 0.5, override the title
colour with pure white or pure black depending on the background luminance. -/
def titleAdjust (background title_color : Color) : Color :=
  if |luminance background - luminance title_color| < 1/2 then
    (if luminance background < 1/2 then ((1 : ℚ), (1 : ℚ), (1 : ℚ)) else ((0 : ℚ), (0 : ℚ), (0 : ℚ)))
  else title_color

/-- Clamp a rational to `[0,1]` (one channel of `np.clip(-, 0, 1)`). -/
def clip01 (x : ℚ) : ℚ := max 0 (min x 1)

/-- `np.clip(color, 0, 1)` componentwise. -/
def clipColor (c : Color) : Color := (clip01 c.1, clip01 c.2.1, clip01 c.2.2)

/-- Scale a colour componentwise by a factor (`np.array(color)*factor`). -/
def colorScale (c : Color) (f : ℚ) : Color := (c.1 * f, c.2.1 * f, c.2.2 * f)

/-- All three channels are nonnegative. -/
def colorNonneg (c : Color) : Prop := 0 ≤ c.1 ∧ 0 ≤ c.2.1 ∧ 0 ≤ c.2.2

/-- All three channels are at most `b`. -/
def colorLe (c : Color) (b : ℚ) : Prop := c.1 ≤ b ∧ c.2.1 ≤ b ∧ c.2.2 ≤ b

/-- All three channels are strictly below `b`. -/
def colorLt (c : Color) (b : ℚ) : Prop := c.1 < b ∧ c.2.1 < b ∧ c.2.2 < b

/-- `np.linspace a b n` with the default `endpoint=True`: `n` samples
`a + (b-a)*k/(n-1)`; for `n = 1` numpy returns `[a]`, which the formula also
yields since division by zero is zero. -/
noncomputable def linspace (a b : ℝ) (n : ℕ) : List ℝ :=
  (List.range n).map (fun k : ℕ => a + (b - a) * k / ((n - 1 : ℕ) : ℝ))

/-- `np.linspace a b n` with `endpoint=False`: `n` samples `a + (b-a)*k/n`. -/
noncomputable def linspaceNoEndpoint (a b : ℝ) (n : ℕ) : List ℝ :=
  (List.range n).map (fun k : ℕ => a + (b - a) * k / (n : ℝ))

/-- `blob` of `app.py` lines 51-56: angles from `np.linspace(0, 2*pi, points)`,
radii `r*(1+wobble*(np.random.rand(points)-0.5))`, points
`center + radii*(cos(angles), sin(angles))`. -/
noncomputable def blob (center : ℝ × ℝ) (r : ℚ) (points : ℕ) (wobble : ℚ)
    (s : RNG) : List (ℝ × ℝ) × RNG :=
  let angles := linspace 0 (2 * Real.pi) points
  let us := npRand points s
  let radii := us.1.map (fun u : ℚ => r * (1 + wobble * (u - 1/2)))
  (List.zipWith
    (fun (a : ℝ) (rad : ℚ) =>
      (center.1 + (rad : ℝ) * Real.cos a, center.2 + (rad : ℝ) * Real.sin a))
    angles radii, us.2)

/-- `shape` of `app.py` lines 58-72.  The module-level global `n_sides` read
by the `"polygon"` branch is modelled by `nSidesOpt : Option ℕ`: `none` means
the global is not defined, in which case the line `n_sides = n_sides` raises
`NameError`.  `np.append(x, x[0])` raises `IndexError` on an empty array,
modelled by the explicit emptiness check (`n_sides = 0`).  Errors are
returned in `Except`.  Any unrecognised `shape_type` falls through to
`blob`. -/
noncomputable def shape (center : ℝ × ℝ) (r : ℚ) (points : ℕ) (wobble : ℚ)
    (shape_type : String) (nSidesOpt : Option ℕ) (s : RNG) :
    Except String (List (ℝ × ℝ)) × RNG :=
  if shape_type = "circle" then
    let angles := linspace 0 (2 * Real.pi) points
    (.ok (angles.map (fun a =>
      (center.1 + (r : ℝ) * Real.cos a, center.2 + (r : ℝ) * Real.sin a))), s)
  else if shape_type = "polygon" then
    match nSidesOpt with
    | none => (.error "NameError: n_sides is not defined", s)
    | some n_sides =>
      if n_sides = 0 then (.error "IndexError: index 0 is out of bounds", s)
      else
        let angles := linspaceNoEndpoint 0 (2 * Real.pi) n_sides
        let verts := angles.map (fun a =>
          (center.1 + (r : ℝ) * Real.cos a, center.2 + (r : ℝ) * Real.sin a))
        (.ok (verts ++ verts.take 1), s)
  else
    let b := blob center r points wobble s
    (.ok b.1, b.2)

/-- `rotate_coords` of `app.py` lines 75-78, applied to a list of points. -/
noncomputable def rotate_coords (pts : List (ℝ × ℝ)) (cx cy : ℝ) (angle : ℝ) :
    List (ℝ × ℝ) :=
  pts.map (fun p =>
    ((p.1 - cx) * Real.cos angle - (p.2 - cy) * Real.sin angle + cx,
     (p.1 - cx) * Real.sin angle + (p.2 - cy) * Real.cos angle + cy))

/-- `math.radians`. -/
noncomputable def radians (d : ℚ) : ℝ := (d : ℝ) * Real.pi / 180

/-- The drawn data of one loop iteration of `generate_3d_poster`
(lines 101-118): centre, radius, rotation angle, rotated shadow outline,
rotated outline, chosen palette colour, brightness-adjusted fill colour,
and fill alpha. -/
structure Layer where
  center : ℚ × ℚ
  radius : ℚ
  angle : ℚ
  shadowPts : List (ℝ × ℝ)
  pts : List (ℝ × ℝ)
  base : Color
  color : Color
  alpha : ℚ

/-- The collected output of `generate_3d_poster`: the palette, the drawn
layers, and the final title colour. -/
structure Poster where
  palette : List Color
  layers : List Layer
  titleColor : Color

/-- The layer loop of `generate_3d_poster` (lines 101-118).  `i` is the
current loop index, `m` the number of remaining iterations, `n` the total
`n_layers` used in the brightness factor.  Draw order per iteration follows
the source: `cx`, `cy` (`random.random`), `rr` (`uniform(0.01,0.25)`), the
shadow outline (numpy draws), `angle` (`uniform(-rotation_range,
rotation_range)`), the actual outline (numpy draws), the palette choice, and
the fill alpha (`uniform(alpha_min, alpha_max)`). -/
noncomputable def buildLayers (shape_type : String) (nSidesOpt : Option ℕ)
    (palette : List Color)
    (wobble brightness_strength alpha_min alpha_max rotation_range : ℚ)
    (dx dy : ℝ) (n : ℕ) :
    ℕ → ℕ → RNG → Except String (List Layer) × RNG
  | _, 0, s => (.ok [], s)
  | i, m + 1, s =>
    let cx := (pyRand s).1
    let s1 := (pyRand s).2
    let cy := (pyRand s1).1
    let s2 := (pyRand s1).2
    let rr := (pyUniform (1/100) (1/4) s2).1
    let s3 := (pyUniform (1/100) (1/4) s2).2
    match shape ((cx : ℝ) + dx, (cy : ℝ) + dy) rr 1000 wobble shape_type nSidesOpt s3 with
    | (.error e, s4) => (.error e, s4)
    | (.ok xs_s, s4) =>
      let angle := (pyUniform (-rotation_range) rotation_range s4).1
      let s5 := (pyUniform (-rotation_range) rotation_range s4).2
      let shadowPts := rotate_coords xs_s ((cx : ℝ) + dx) ((cy : ℝ) + dy) (angle : ℝ)
      match shape ((cx : ℝ), (cy : ℝ)) rr 1000 wobble shape_type nSidesOpt s5 with
      | (.error e, s6) => (.error e, s6)
      | (.ok xs, s6) =>
        let pts := rotate_coords xs (cx : ℝ) (cy : ℝ) (angle : ℝ)
        let base := (pyChoice palette s6).1
        let s7 := (pyChoice palette s6).2
        let color := clipColor (colorScale base (7/10 + brightness_strength * ((i : ℚ) / (n : ℚ))))
        let alpha := (pyUniform alpha_min alpha_max s7).1
        let s8 := (pyUniform alpha_min alpha_max s7).2
        match buildLayers shape_type nSidesOpt palette wobble brightness_strength
            alpha_min alpha_max rotation_range dx dy n (i + 1) m s8 with
        | (.error e, s9) => (.error e, s9)
        | (.ok ls, s9) =>
          (.ok (⟨(cx, cy), rr, angle, shadowPts, pts, base, color, alpha⟩ :: ls), s9)

/-- `generate_3d_poster` of `app.py` lines 81-136.  `pyGen`/`npGen` abstract
the seeded generator algorithms of `random` / `np.random`; `s0` is the
incoming process-wide random state, which `random.seed(seed)` and
`np.random.seed(seed)` immediately replace.  The figure/axis calls carry no
data and are omitted; drawing is collected into a `Poster`. -/
noncomputable def generate_3d_poster (pyGen npGen : ℤ → ℕ → ℚ)
    (style shape_type : String) (n_layers : ℕ) (wobble : ℚ)
    (background title_color : Color) (seed : ℤ)
    (shadow_offset brightness_strength alpha_min alpha_max : ℚ)
    (light_angle rotation_range : ℚ) (nSidesOpt : Option ℕ) (s0 : RNG) :
    Except String Poster × RNG :=
  let s : RNG := ⟨pyGen seed, npGen seed⟩
  let ps := random_palette style 20 s
  let palette := ps.1
  let s1 := ps.2
  let dx : ℝ := (shadow_offset : ℝ) * Real.cos (radians light_angle)
  let dy : ℝ := -(shadow_offset : ℝ) * Real.sin (radians light_angle)
  let res := buildLayers shape_type nSidesOpt palette wobble brightness_strength
    alpha_min alpha_max rotation_range dx dy n_layers 0 n_layers s1
  match res with
  | (.error e, s2) => (.error e, s2)
  | (.ok layers, s2) =>
    (.ok ⟨palette, layers, titleAdjust background title_color⟩, s2)

/-- Modelled from the spec: the generation rule the spec lists for the
`spiky` style ("per-angle-sample independent Gaussian perturbation of
radius, scaled by 2x the wobble magnitude", over the spec's uniform angular
sweep of `[0, 2*pi)`).  No such branch exists in `shape`; `gauss` abstracts
the Gaussian draw stream the rule would consume. -/
noncomputable def spikySpecOutline (center : ℝ × ℝ) (r : ℚ) (points : ℕ)
    (wobble : ℚ) (gauss : ℕ → ℝ) : List (ℝ × ℝ) :=
  (List.range points).map (fun k : ℕ =>
    (center.1 + (r : ℝ) * (1 + 2 * (wobble : ℝ) * gauss k) *
        Real.cos (2 * Real.pi * k / (points : ℝ)),
     center.2 + (r : ℝ) * (1 + 2 * (wobble : ℝ) * gauss k) *
        Real.sin (2 * Real.pi * k / (points : ℝ))))

/-- A constant draw stream: every draw is `1/2`. -/
def halfRNG : RNG := ⟨fun _ => 1/2, fun _ => 1/2⟩

/-- The Python stream producing `0.95` then `0.9, 0.9, ...`. -/
def monoStream : RNG := ⟨fun n => if n = 0 then 19/20 else 9/10, fun _ => 0⟩

lemma shiftPy_py (s : RNG) (k n : ℕ) : (s.shiftPy k).py n = s.py (n + k) := rfl

lemma shiftPy_bounded {s : RNG} (h : RNG.Bounded s) (k : ℕ) :
    RNG.Bounded (s.shiftPy k) :=
  ⟨fun n => h.1 (n + k), h.2⟩

lemma shiftNp_bounded {s : RNG} (h : RNG.Bounded s) (k : ℕ) :
    RNG.Bounded (s.shiftNp k) :=
  ⟨h.1, fun n => h.2 (n + k)⟩

lemma halfRNG_bounded : RNG.Bounded halfRNG := by
  constructor <;> intro n <;> constructor <;> norm_num [halfRNG]

lemma drawColors_length (k : ℕ) (f : RNG → Color × RNG) (s : RNG) :
    (drawColors k f s).1.length = k := by
  induction k generalizing s with
  | zero => rfl
  | succ k ih => simp [drawColors, ih]

lemma drawColors_forall (Q : Color → Prop) {f : RNG → Color × RNG}
    (hf : ∀ t : RNG, t.Bounded → Q (f t).1 ∧ RNG.Bounded (f t).2) :
    ∀ (k : ℕ) (s : RNG), s.Bounded → ∀ c ∈ (drawColors k f s).1, Q c := by
  intro k
  induction k with
  | zero => intro s _ c hc; simp [drawColors] at hc
  | succ k ih =>
    intro s hs c hc
    simp only [drawColors, List.mem_cons] at hc
    rcases hc with h | h
    · exact h ▸ (hf s hs).1
    · exact ih _ (hf s hs).2 c h

lemma drawColors_bounded {f : RNG → Color × RNG}
    (hf : ∀ t : RNG, t.Bounded → RNG.Bounded (f t).2) :
    ∀ (k : ℕ) (s : RNG), s.Bounded → RNG.Bounded (drawColors k f s).2 := by
  intro k
  induction k with
  | zero => intro s hs; exact hs
  | succ k ih => intro s hs; exact ih _ (hf s hs)

lemma getD_of_forall {Q : Color → Prop} {l : List Color} {d : Color}
    (hl : ∀ x ∈ l, Q x) (hd : Q d) (i : ℕ) : Q (l.getD i d) := by
  rw [List.getD_eq_get?]
  cases h : l.get? i with
  | none => simpa using hd
  | some x => simpa using hl x (List.get?_mem h)

lemma random_palette_length (style : String) (k : ℕ) (s : RNG) :
    (random_palette style k s).1.length = k := by
  unfold random_palette
  split_ifs <;> simp [drawColors_length]

lemma random_palette_bounded (style : String) (k : ℕ) {s : RNG}
    (hs : RNG.Bounded s) : RNG.Bounded (random_palette style k s).2 := by
  unfold random_palette
  split_ifs <;>
    refine drawColors_bounded (fun t ht => ?_) k _ ?_ <;>
    first
      | exact shiftPy_bounded ht _
      | exact hs
      | exact shiftPy_bounded hs 1

lemma zipWith_map_range {α β γ : Type} (f : α → β → γ) :
    ∀ (n : ℕ) (g : ℕ → α) (h : ℕ → β),
      List.zipWith f ((List.range n).map g) ((List.range n).map h) =
        (List.range n).map (fun k => f (g k) (h k)) := by
  intro n
  induction n with
  | zero => intro g h; rfl
  | succ n ih =>
    intro g h
    rw [List.range_succ_eq_map]
    simp only [List.map_cons, List.map_map, List.zipWith_cons_cons]
    rw [show (List.map (g ∘ Nat.succ) (List.range n)) =
          (List.range n).map (fun k => g (k + 1)) from rfl,
        show (List.map (h ∘ Nat.succ) (List.range n)) =
          (List.range n).map (fun k => h (k + 1)) from rfl,
        ih (fun k => g (k + 1)) (fun k => h (k + 1))]
    rfl

lemma blob_fst (center : ℝ × ℝ) (r : ℚ) (points : ℕ) (wobble : ℚ) (s : RNG) :
    (blob center r points wobble s).1 =
      (List.range points).map (fun k =>
        (center.1 + ((r * (1 + wobble * (s.np k - 1/2)) : ℚ) : ℝ) *
            Real.cos (0 + (2 * Real.pi - 0) * k / ((points - 1 : ℕ) : ℝ)),
         center.2 + ((r * (1 + wobble * (s.np k - 1/2)) : ℚ) : ℝ) *
            Real.sin (0 + (2 * Real.pi - 0) * k / ((points - 1 : ℕ) : ℝ)))) := by
  unfold blob linspace npRand
  simp only [List.map_map]
  rw [show ((fun u => r * (1 + wobble * (u - 1/2))) ∘ fun k => s.np k) =
        (fun k => r * (1 + wobble * (s.np k - 1/2))) from rfl,
      show ((fun k : ℕ => (0 : ℝ) + (2 * Real.pi - 0) * k / ((points - 1 : ℕ) : ℝ))) =
        (fun k : ℕ => 0 + (2 * Real.pi - 0) * k / ((points - 1 : ℕ) : ℝ)) from rfl]
  rw [zipWith_map_range]

lemma blob_get? (center : ℝ × ℝ) (r : ℚ) (points : ℕ) (wobble : ℚ) (s : RNG)
    (k : ℕ) (hk : k < points) :
    (blob center r points wobble s).1.get? k =
      some (center.1 + ((r * (1 + wobble * (s.np k - 1/2)) : ℚ) : ℝ) *
              Real.cos (2 * Real.pi * k / ((points - 1 : ℕ) : ℝ)),
            center.2 + ((r * (1 + wobble * (s.np k - 1/2)) : ℚ) : ℝ) *
              Real.sin (2 * Real.pi * k / ((points - 1 : ℕ) : ℝ))) := by
  rw [blob_fst, List.get?_map, List.get?_range hk]
  norm_num

lemma drawColors_uniform :
    ∀ (k : ℕ) (s : RNG),
      (drawColors k defaultDraw s).1 =
        (List.range k).map (fun j => ((s.py (3*j), s.py (3*j+1), s.py (3*j+2)) : Color)) := by
  intro k
  induction k with
  | zero => intro s; rfl
  | succ k ih =>
    intro s
    rw [List.range_succ_eq_map]
    simp only [drawColors, defaultDraw, List.map_cons, List.map_map]
    congr 1
    rw [ih]
    apply List.map_congr_left
    intro j hj
    simp only [Function.comp, RNG.shiftPy, Prod.mk.injEq]
    refine ⟨?_, ?_, ?_⟩ <;> congr 1

lemma shape_some_ok (center : ℝ × ℝ) (r : ℚ) (points : ℕ) (wobble : ℚ)
    (shape_type : String) (N : ℕ) (hN : 1 ≤ N) (s : RNG) :
    ∃ pts s', shape center r points wobble shape_type (some N) s = (.ok pts, s') ∧
      (RNG.Bounded s → RNG.Bounded s') := by
  unfold shape
  by_cases h1 : shape_type = "circle"
  · rw [if_pos h1]
    exact ⟨_, s, rfl, fun h => h⟩
  · rw [if_neg h1]
    by_cases h2 : shape_type = "polygon"
    · rw [if_pos h2]
      dsimp only
      rw [if_neg (by omega : ¬ N = 0)]
      exact ⟨_, s, rfl, fun h => h⟩
    · rw [if_neg h2]
      exact ⟨_, _, rfl, fun h => shiftNp_bounded h points⟩

lemma buildLayers_ok (shape_type : String) (N : ℕ) (hN : 1 ≤ N)
    (palette : List Color)
    (wobble brightness_strength alpha_min alpha_max rotation_range : ℚ)
    (dx dy : ℝ) (n : ℕ) :
    ∀ (m i : ℕ) (s : RNG),
      ∃ ls s', buildLayers shape_type (some N) palette wobble brightness_strength
        alpha_min alpha_max rotation_range dx dy n i m s = (.ok ls, s') := by
  intro m
  induction m with
  | zero => intro i s; exact ⟨[], s, rfl⟩
  | succ m ih =>
    intro i s
    obtain ⟨pts1, t1, h1, _⟩ := shape_some_ok _ _ 1000 wobble shape_type N hN
      ((pyUniform (1/100) (1/4) (pyRand (pyRand s).2).2).2)
    obtain ⟨pts2, t2, h2, _⟩ := shape_some_ok _ _ 1000 wobble shape_type N hN
      ((pyUniform (-rotation_range) rotation_range t1).2)
    obtain ⟨ls, t3, h3⟩ := ih (i + 1)
      ((pyUniform alpha_min alpha_max (pyChoice palette t2).2).2)
    simp only [buildLayers]
    rw [h1]
    dsimp only
    rw [h2]
    dsimp only
    rw [h3]
    exact ⟨_, _, rfl⟩

lemma pyUniform_mem {a b : ℚ} (hab : a ≤ b) {s : RNG} (hs : streamBounded s.py) :
    a ≤ (pyUniform a b s).1 ∧ (pyUniform a b s).1 ≤ b := by
  obtain ⟨h0, h1⟩ := hs 0
  constructor
  · have : 0 ≤ (b - a) * s.py 0 := mul_nonneg (by linarith) h0
    simp only [pyUniform]
    linarith
  · have : (b - a) * s.py 0 ≤ (b - a) * 1 := by
      apply mul_le_mul_of_nonneg_left (le_of_lt h1) (by linarith)
    simp only [pyUniform]
    linarith

lemma pyChoice_mem {l : List Color} (hl : 1 ≤ l.length) {s : RNG}
    (hs : streamBounded s.py) : (pyChoice l s).1 ∈ l := by
  obtain ⟨h0, h1⟩ := hs 0
  have hlt : Nat.floor (s.py 0 * l.length) < l.length := by
    have hp : (0 : ℚ) ≤ s.py 0 * l.length := by positivity
    rw [Nat.floor_lt hp]
    have : s.py 0 * (l.length : ℚ) < 1 * (l.length : ℚ) := by
      apply mul_lt_mul_of_pos_right h1
      exact_mod_cast hl
    linarith
  simp only [pyChoice]
  rw [List.getD_eq_get?, List.get?_eq_get hlt]
  exact List.get_mem l _ hlt

lemma clip01_bounds (x : ℚ) : 0 ≤ clip01 x ∧ clip01 x ≤ 1 := by
  unfold clip01
  constructor
  · exact le_max_left 0 _
  · apply max_le
    · norm_num
    · exact min_le_right x 1

lemma clipColor_bounds (c : Color) :
    colorNonneg (clipColor c) ∧ colorLe (clipColor c) 1 :=
  ⟨⟨(clip01_bounds c.1).1, (clip01_bounds c.2.1).1, (clip01_bounds c.2.2).1⟩,
   ⟨(clip01_bounds c.1).2, (clip01_bounds c.2.1).2, (clip01_bounds c.2.2).2⟩⟩

/-- What claim C8 asserts of each drawn layer, at loop index `idx`. -/
def LayerSpec (palette : List Color) (brightness_strength alpha_min alpha_max : ℚ)
    (n idx : ℕ) (L : Layer) : Prop :=
  L.base ∈ palette ∧
  L.color = clipColor (colorScale L.base
    (7/10 + brightness_strength * ((idx : ℚ) / (n : ℚ)))) ∧
  alpha_min ≤ L.alpha ∧ L.alpha ≤ alpha_max

lemma buildLayers_spec (shape_type : String) (N : ℕ) (hN : 1 ≤ N)
    (palette : List Color) (hpal : 1 ≤ palette.length)
    (wobble brightness_strength alpha_min alpha_max rotation_range : ℚ)
    (hab : alpha_min ≤ alpha_max) (dx dy : ℝ) (n : ℕ) :
    ∀ (m i : ℕ) (s : RNG), RNG.Bounded s →
      ∃ ls s', buildLayers shape_type (some N) palette wobble brightness_strength
          alpha_min alpha_max rotation_range dx dy n i m s = (.ok ls, s') ∧
        ls.length = m ∧
        ∀ j L, ls.get? j = some L →
          LayerSpec palette brightness_strength alpha_min alpha_max n (i + j) L := by
  intro m
  induction m with
  | zero =>
    intro i s hs
    exact ⟨[], s, rfl, rfl, by intro j L h; simp at h⟩
  | succ m ih =>
    intro i s hs
    have hs3 : RNG.Bounded ((pyUniform (1/100) (1/4) (pyRand (pyRand s).2).2).2) :=
      shiftPy_bounded (shiftPy_bounded (shiftPy_bounded hs 1) 1) 1
    obtain ⟨pts1, t1, h1, hb1⟩ := shape_some_ok
      ((((pyRand s).1 : ℚ) : ℝ) + dx, (((pyRand (pyRand s).2).1 : ℚ) : ℝ) + dy)
      ((pyUniform (1/100) (1/4) (pyRand (pyRand s).2).2).1) 1000 wobble shape_type N hN
      ((pyUniform (1/100) (1/4) (pyRand (pyRand s).2).2).2)
    have ht1 : RNG.Bounded t1 := hb1 hs3
    have ht5 : RNG.Bounded ((pyUniform (-rotation_range) rotation_range t1).2) :=
      shiftPy_bounded ht1 1
    obtain ⟨pts2, t2, h2, hb2⟩ := shape_some_ok
      ((((pyRand s).1 : ℚ) : ℝ), (((pyRand (pyRand s).2).1 : ℚ) : ℝ))
      ((pyUniform (1/100) (1/4) (pyRand (pyRand s).2).2).1) 1000 wobble shape_type N hN
      ((pyUniform (-rotation_range) rotation_range t1).2)
    have ht2 : RNG.Bounded t2 := hb2 ht5
    have ht7 : RNG.Bounded ((pyChoice palette t2).2) := shiftPy_bounded ht2 1
    have ht8 : RNG.Bounded ((pyUniform alpha_min alpha_max (pyChoice palette t2).2).2) :=
      shiftPy_bounded ht7 1
    obtain ⟨ls, t3, h3, hlen, hspec⟩ := ih (i + 1)
      ((pyUniform alpha_min alpha_max (pyChoice palette t2).2).2) ht8
    simp only [buildLayers]
    rw [h1]
    dsimp only
    rw [h2]
    dsimp only
    rw [h3]
    refine ⟨_, t3, rfl, by simp [hlen], ?_⟩
    intro j L hL
    cases j with
    | zero =>
      simp only [List.get?] at hL
      injection hL with hL
      subst hL
      refine ⟨pyChoice_mem hpal ht2.1, ?_, ?_, ?_⟩
      · simp
      · simpa using (pyUniform_mem hab ht7.1).1
      · simpa using (pyUniform_mem hab ht7.1).2
    | succ j =>
      simp only [List.get?] at hL
      have := hspec j L hL
      rw [show i + 1 + j = i + (j + 1) by omega] at this
      exact this

lemma pastelDraw_spec (t : RNG) (ht : RNG.Bounded t) :
    (colorNonneg (pastelDraw t).1 ∧ colorLe (pastelDraw t).1 1) ∧
      RNG.Bounded (pastelDraw t).2 := by
  have b0 := ht.1 0
  have b1 := ht.1 1
  have b2 := ht.1 2
  refine ⟨⟨⟨?_, ?_, ?_⟩, ?_, ?_, ?_⟩, shiftPy_bounded ht 3⟩ <;>
    simp only [pastelDraw] <;>
    linarith [b0.1, b0.2, b1.1, b1.2, b2.1, b2.2]

lemma neonDraw_spec (t : RNG) (ht : RNG.Bounded t) :
    (colorNonneg (neonDraw t).1 ∧ colorLe (neonDraw t).1 1) ∧
      RNG.Bounded (neonDraw t).2 := by
  have b0 := ht.1 0
  have b1 := ht.1 1
  have b2 := ht.1 2
  refine ⟨⟨⟨?_, ?_, ?_⟩, ?_, ?_, ?_⟩, shiftPy_bounded ht 3⟩ <;>
    simp only [neonDraw] <;>
    linarith [b0.1, b0.2, b1.1, b1.2, b2.1, b2.2]

lemma monoDraw_spec (base : ℚ) (hb0 : 0 ≤ base) (hb1 : base < 1)
    (t : RNG) (ht : RNG.Bounded t) :
    (colorNonneg (monoDraw base t).1 ∧ colorLt (monoDraw base t).1 (11/10)) ∧
      RNG.Bounded (monoDraw base t).2 := by
  have b0 := ht.1 0
  refine ⟨⟨⟨?_, ?_, ?_⟩, ?_, ?_, ?_⟩, shiftPy_bounded ht 1⟩ <;>
    simp only [monoDraw] <;>
    linarith [b0.1, b0.2]

lemma defaultDraw_spec (t : RNG) (ht : RNG.Bounded t) :
    (colorNonneg (defaultDraw t).1 ∧ colorLe (defaultDraw t).1 1) ∧
      RNG.Bounded (defaultDraw t).2 := by
  have b0 := ht.1 0
  have b1 := ht.1 1
  have b2 := ht.1 2
  refine ⟨⟨⟨?_, ?_, ?_⟩, ?_, ?_, ?_⟩, shiftPy_bounded ht 3⟩ <;>
    simp only [defaultDraw] <;>
    linarith [b0.1, b0.2, b1.1, b1.2, b2.1, b2.2]

lemma choiceDraw_spec (tones : List Color)
    (hQ : ∀ c ∈ tones, colorNonneg c ∧ colorLe c 1)
    (t : RNG) (ht : RNG.Bounded t) :
    (colorNonneg (choiceDraw tones t).1 ∧ colorLe (choiceDraw tones t).1 1) ∧
      RNG.Bounded (choiceDraw tones t).2 := by
  refine ⟨?_, shiftPy_bounded ht 1⟩
  refine getD_of_forall hQ ?_ _
  constructor <;> constructor <;> norm_num [colorNonneg, colorLe]

lemma earth_tones_bounds : ∀ c ∈ earth_tones, colorNonneg c ∧ colorLe c 1 := by
  intro c hc
  fin_cases hc <;> constructor <;> norm_num [colorNonneg, colorLe]

lemma ocean_tones_bounds : ∀ c ∈ ocean_tones, colorNonneg c ∧ colorLe c 1 := by
  intro c hc
  fin_cases hc <;> constructor <;> norm_num [colorNonneg, colorLe]

lemma sunset_tones_bounds : ∀ c ∈ sunset_tones, colorNonneg c ∧ colorLe c 1 := by
  intro c hc
  fin_cases hc <;> constructor <;> norm_num [colorNonneg, colorLe]

lemma cyber_colors_bounds : ∀ c ∈ cyber_colors, colorNonneg c ∧ colorLe c 1 := by
  intro c hc
  fin_cases hc <;> constructor <;> norm_num [colorNonneg, colorLe]

/-- Claim C1: for a fixed integer seed and fixed parameter values, two calls
to `generate_3d_poster` produce identical outputs — the same palette, the
same per-layer centres, radii, point sequences, rotation angles, colours and
alphas, and the same final text colour — regardless of the incoming
process-wide random state, because `random.seed(seed)` and
`np.random.seed(seed)` reset both streams at entry. -/
theorem c1_determinism (pyGen npGen : ℤ → ℕ → ℚ) (style shape_type : String)
    (n_layers : ℕ) (wobble : ℚ) (background title_color : Color) (seed : ℤ)
    (shadow_offset brightness_strength alpha_min alpha_max : ℚ)
    (light_angle rotation_range : ℚ) (nSidesOpt : Option ℕ) (s1 s2 : RNG) :
    (generate_3d_poster pyGen npGen style shape_type n_layers wobble background
      title_color seed shadow_offset brightness_strength alpha_min alpha_max
      light_angle rotation_range nSidesOpt s1).1 =
    (generate_3d_poster pyGen npGen style shape_type n_layers wobble background
      title_color seed shadow_offset brightness_strength alpha_min alpha_max
      light_angle rotation_range nSidesOpt s2).1 := rfl

/-- Claim C10: with `shape_type = "polygon"`, `shape` ignores its `points`
and `wobble` parameters entirely — the vertex count comes only from the
module-level global `n_sides` — and when that global is not defined the
call raises `NameError` instead of returning a point sequence. -/
theorem c10_polygon_global (center : ℝ × ℝ) (r : ℚ) (points points' : ℕ)
    (wobble wobble' : ℚ) (nSidesOpt : Option ℕ) (s : RNG) :
    shape center r points wobble "polygon" nSidesOpt s =
      shape center r points' wobble' "polygon" nSidesOpt s ∧
    shape center r points wobble "polygon" none s =
      (.error "NameError: n_sides is not defined", s) := by
  constructor
  · cases nSidesOpt <;> rfl
  · rfl

/-- Claim C2, counterexample: for the `"monochrome"` style the channels are
`base + 0.1*random()`, which exceeds 1 when `base = 0.95` and the next draw
is `0.9`: the first colour of `random_palette "monochrome" 1` then has
channel value `26/25 > 1`, so not every channel lies in `[0,1]`. -/
theorem c2_counterexample :
    ((random_palette "monochrome" 1 monoStream).1.get? 0).map (fun c : Color => c.1) =
      some (26/25) ∧ ¬ ((26/25 : ℚ) ≤ 1) := by
  constructor
  · norm_num [random_palette, drawColors, monoDraw, pyRand, RNG.shiftPy, monoStream,
      List.get?]
  · norm_num

/-- Claim C2 as amended: for every style tag and every count `k`,
`random_palette` returns exactly `k` colours with nonnegative channels;
for every style other than `"monochrome"` each channel lies in `[0,1]`,
while for `"monochrome"` the channels are only bounded by `11/10`
(`base + 0.1*random()` can exceed 1). -/
theorem c2_palette (style : String) (k : ℕ) (s : RNG) (hs : RNG.Bounded s) :
    (random_palette style k s).1.length = k ∧
    ∀ c ∈ (random_palette style k s).1,
      colorNonneg c ∧
      (if style = "monochrome" then colorLt c (11/10) else colorLe c 1) := by
  refine ⟨random_palette_length style k s, ?_⟩
  intro c hc
  unfold random_palette at hc
  split_ifs at hc with h1 h2 h3 h4 h5 h6 h7
  · rw [h1, if_neg (by decide : ¬("pastel" : String) = "monochrome")]
    exact drawColors_forall (fun c => colorNonneg c ∧ colorLe c 1)
      (fun t ht => pastelDraw_spec t ht) k s hs c hc
  · rw [h2, if_neg (by decide : ¬("neon" : String) = "monochrome")]
    exact drawColors_forall (fun c => colorNonneg c ∧ colorLe c 1)
      (fun t ht => neonDraw_spec t ht) k s hs c hc
  · rw [h3, if_pos rfl]
    exact drawColors_forall (fun c => colorNonneg c ∧ colorLt c (11/10))
      (fun t ht => monoDraw_spec (pyRand s).1 (hs.1 0).1 (hs.1 0).2 t ht)
      k (pyRand s).2 (shiftPy_bounded hs 1) c hc
  · rw [if_neg h3]
    exact drawColors_forall (fun c => colorNonneg c ∧ colorLe c 1)
      (fun t ht => choiceDraw_spec _ earth_tones_bounds t ht) k s hs c hc
  · rw [if_neg h3]
    exact drawColors_forall (fun c => colorNonneg c ∧ colorLe c 1)
      (fun t ht => choiceDraw_spec _ ocean_tones_bounds t ht) k s hs c hc
  · rw [if_neg h3]
    exact drawColors_forall (fun c => colorNonneg c ∧ colorLe c 1)
      (fun t ht => choiceDraw_spec _ sunset_tones_bounds t ht) k s hs c hc
  · rw [if_neg h3]
    exact drawColors_forall (fun c => colorNonneg c ∧ colorLe c 1)
      (fun t ht => choiceDraw_spec _ cyber_colors_bounds t ht) k s hs c hc
  · rw [if_neg h3]
    exact drawColors_forall (fun c => colorNonneg c ∧ colorLe c 1)
      (fun t ht => defaultDraw_spec t ht) k s hs c hc

/-- Witness for `c2_palette` at a concrete input. -/
theorem c2_witness :
    RNG.Bounded halfRNG ∧
    ((random_palette "pastel" 2 halfRNG).1.length = 2 ∧
      ∀ c ∈ (random_palette "pastel" 2 halfRNG).1,
        colorNonneg c ∧
        (if ("pastel" : String) = "monochrome" then colorLt c (11/10)
         else colorLe c 1)) :=
  ⟨halfRNG_bounded, c2_palette "pastel" 2 halfRNG halfRNG_bounded⟩

/-- Claim C9: for every style tag outside the recognised set and every count
`k ≥ 1`, `random_palette` returns normally with exactly `k` colours whose
channels are three fresh raw draws of the seeded stream (the uniform
per-channel fallback). -/
theorem c9_default (style : String) (k : ℕ) (s : RNG)
    (hstyle : style ∉ (["pastel", "neon", "monochrome", "earth", "ocean",
      "sunset", "cyberpunk"] : List String)) (hk : 1 ≤ k) :
    (random_palette style k s).1.length = k ∧
    (random_palette style k s).1 =
      (List.range k).map (fun j =>
        ((s.py (3*j), s.py (3*j+1), s.py (3*j+2)) : Color)) := by
  have h := hstyle
  simp only [List.mem_cons, List.not_mem_nil, or_false, not_or] at h
  obtain ⟨n1, n2, n3, n4, n5, n6, n7⟩ := h
  refine ⟨random_palette_length style k s, ?_⟩
  unfold random_palette
  rw [if_neg n1, if_neg n2, if_neg n3, if_neg n4, if_neg n5, if_neg n6, if_neg n7]
  exact drawColors_uniform k s

/-- Witness for `c9_default` at a concrete input. -/
theorem c9_witness :
    ("vivid" : String) ∉ (["pastel", "neon", "monochrome", "earth", "ocean",
      "sunset", "cyberpunk"] : List String) ∧ 1 ≤ 2 ∧
    ((random_palette "vivid" 2 halfRNG).1.length = 2 ∧
      (random_palette "vivid" 2 halfRNG).1 =
        (List.range 2).map (fun j =>
          ((halfRNG.py (3*j), halfRNG.py (3*j+1), halfRNG.py (3*j+2)) : Color))) :=
  ⟨by decide, by norm_num,
   c9_default "vivid" 2 halfRNG (by decide) (by norm_num)⟩

/-- Claim C6 as amended: the `k`-th point of `blob` is
`center + r*(1 + wobble*(u_k - 1/2))*(cos t_k, sin t_k)` with `u_k` the
`k`-th raw numpy draw, and the angles `t_k = 2*pi*k/(points-1)` sweep the
closed interval `[0, 2*pi]` — the endpoint is included
(`np.linspace` default), not excluded as claimed. -/
theorem c6_blob_points (center : ℝ × ℝ) (r : ℚ) (points : ℕ) (wobble : ℚ)
    (s : RNG) (k : ℕ) (hk : k < points) :
    (blob center r points wobble s).1.get? k =
      some (center.1 + ((r * (1 + wobble * (s.np k - 1/2)) : ℚ) : ℝ) *
              Real.cos (2 * Real.pi * k / ((points - 1 : ℕ) : ℝ)),
            center.2 + ((r * (1 + wobble * (s.np k - 1/2)) : ℚ) : ℝ) *
              Real.sin (2 * Real.pi * k / ((points - 1 : ℕ) : ℝ))) :=
  blob_get? center r points wobble s k hk

/-- Witness for `c6_blob_points` at a concrete input. -/
theorem c6_witness :
    0 < 2 ∧
    (blob ((0 : ℝ), (0 : ℝ)) 1 2 0 halfRNG).1.get? 0 =
      some ((0 : ℝ) + ((1 * (1 + 0 * (halfRNG.np 0 - 1/2)) : ℚ) : ℝ) *
              Real.cos (2 * Real.pi * (0 : ℕ) / ((2 - 1 : ℕ) : ℝ)),
            (0 : ℝ) + ((1 * (1 + 0 * (halfRNG.np 0 - 1/2)) : ℚ) : ℝ) *
              Real.sin (2 * Real.pi * (0 : ℕ) / ((2 - 1 : ℕ) : ℝ))) :=
  ⟨by norm_num, c6_blob_points ((0 : ℝ), (0 : ℝ)) 1 2 0 halfRNG 0 (by norm_num)⟩

/-- Claim C6, counterexample: with `points = 2` the code's second angle is
`2*pi*1/(2-1) = 2*pi` (`np.linspace` includes the endpoint), so at
`center = (0,0)`, `r = 1`, `wobble = 0` the second point has x-coordinate
`cos(2*pi) = 1`; the claimed half-open sweep `t_k = 2*pi*k/points` would
give angle `pi` and x-coordinate `cos(pi) = -1`. -/
theorem c6_counterexample :
    ((blob ((0 : ℝ), (0 : ℝ)) 1 2 0 halfRNG).1.get? 1).map Prod.fst = some 1 ∧
    (0 : ℝ) + 1 * Real.cos (2 * Real.pi * 1 / 2) = -1 ∧
    (1 : ℝ) ≠ -1 := by
  refine ⟨?_, ?_, by norm_num⟩
  · rw [blob_get? ((0 : ℝ), (0 : ℝ)) 1 2 0 halfRNG 1 (by norm_num)]
    simp only [Option.map_some]
    norm_num [Real.cos_two_pi]
  · rw [show (2 : ℝ) * Real.pi * 1 / 2 = Real.pi by ring]
    norm_num [Real.cos_pi]

/-- Claim C5 as amended: `shape` has no dedicated `"spiky"` branch: the tag
falls through to the default `blob`, whose per-sample radial perturbation is
the bounded uniform `wobble*(u_k - 1/2)` with `u_k` a raw numpy draw —
applied once (not scaled by 2) and not Gaussian. -/
theorem c5_spiky_fallback (center : ℝ × ℝ) (r : ℚ) (points : ℕ) (wobble : ℚ)
    (nSidesOpt : Option ℕ) (s : RNG) (k : ℕ) (hk : k < points) :
    shape center r points wobble "spiky" nSidesOpt s =
      (.ok (blob center r points wobble s).1, (blob center r points wobble s).2) ∧
    (blob center r points wobble s).1.get? k =
      some (center.1 + ((r * (1 + wobble * (s.np k - 1/2)) : ℚ) : ℝ) *
              Real.cos (2 * Real.pi * k / ((points - 1 : ℕ) : ℝ)),
            center.2 + ((r * (1 + wobble * (s.np k - 1/2)) : ℚ) : ℝ) *
              Real.sin (2 * Real.pi * k / ((points - 1 : ℕ) : ℝ))) :=
  ⟨rfl, blob_get? center r points wobble s k hk⟩

/-- Witness for `c5_spiky_fallback` at a concrete input. -/
theorem c5_witness :
    0 < 1 ∧
    (shape ((0 : ℝ), (0 : ℝ)) 1 1 0 "spiky" none halfRNG =
        (.ok (blob ((0 : ℝ), (0 : ℝ)) 1 1 0 halfRNG).1,
         (blob ((0 : ℝ), (0 : ℝ)) 1 1 0 halfRNG).2) ∧
      (blob ((0 : ℝ), (0 : ℝ)) 1 1 0 halfRNG).1.get? 0 =
        some ((0 : ℝ) + ((1 * (1 + 0 * (halfRNG.np 0 - 1/2)) : ℚ) : ℝ) *
                Real.cos (2 * Real.pi * (0 : ℕ) / ((1 - 1 : ℕ) : ℝ)),
              (0 : ℝ) + ((1 * (1 + 0 * (halfRNG.np 0 - 1/2)) : ℚ) : ℝ) *
                Real.sin (2 * Real.pi * (0 : ℕ) / ((1 - 1 : ℕ) : ℝ)))) :=
  ⟨by norm_num,
   c5_spiky_fallback ((0 : ℝ), (0 : ℝ)) 1 1 0 none halfRNG 0 (by norm_num)⟩

/-- Claim C5, counterexample: the spec's spiky rule (Gaussian perturbation
scaled by `2*wobble`) disagrees with the code already at the first sample:
with `center = (0,0)`, `r = 1`, `points = 1`, `wobble = 1` and all draws
`1/2` the code returns x-coordinate `1`, while the spec rule with Gaussian
draw `1` gives `1*(1+2*1*1)*cos 0 = 3`. -/
theorem c5_counterexample :
    (((shape ((0 : ℝ), (0 : ℝ)) 1 1 1 "spiky" none halfRNG).1.toOption).bind
        (fun l => l.get? 0)).map Prod.fst = some 1 ∧
    ((spikySpecOutline ((0 : ℝ), (0 : ℝ)) 1 1 1 (fun _ => 1)).get? 0).map Prod.fst =
      some 3 ∧
    (1 : ℝ) ≠ 3 := by
  refine ⟨?_, ?_, by norm_num⟩
  · have hs : (shape ((0 : ℝ), (0 : ℝ)) 1 1 1 "spiky" none halfRNG).1 =
        Except.ok (blob ((0 : ℝ), (0 : ℝ)) 1 1 1 halfRNG).1 := rfl
    rw [hs]
    simp only [Except.toOption, Option.some_bind]
    rw [blob_get? ((0 : ℝ), (0 : ℝ)) 1 1 1 halfRNG 0 (by norm_num)]
    simp only [Option.map_some]
    norm_num [halfRNG, Real.cos_zero]
  · unfold spikySpecOutline
    rw [List.get?_map, List.get?_range (by norm_num : 0 < 1)]
    simp only [Option.map_some]
    norm_num [Real.cos_zero]

/-- Claim C7: for `shape_type = "polygon"` with side count `N ≥ 3`, the
outline is `N` vertices evenly spaced in angle at constant radius `r`
around the centre, closed by repeating the first vertex: the returned
sequence has `N + 1` points, its first point equals its last point, and the
`j`-th vertex is `center + r*(cos(2*pi*j/N), sin(2*pi*j/N))`. -/
theorem c7_polygon (center : ℝ × ℝ) (r : ℚ) (points : ℕ) (wobble : ℚ)
    (N : ℕ) (s : RNG) (hN : 3 ≤ N) :
    ∃ l, shape center r points wobble "polygon" (some N) s = (.ok l, s) ∧
      l.length = N + 1 ∧ l.head? = l.getLast? ∧
      ∀ j, j < N → l.get? j =
        some (center.1 + (r : ℝ) * Real.cos (2 * Real.pi * j / (N : ℝ)),
              center.2 + (r : ℝ) * Real.sin (2 * Real.pi * j / (N : ℝ))) := by
  have hsh : shape center r points wobble "polygon" (some N) s =
      (.ok ((linspaceNoEndpoint 0 (2 * Real.pi) N).map (fun a =>
          (center.1 + (r : ℝ) * Real.cos a, center.2 + (r : ℝ) * Real.sin a)) ++
        ((linspaceNoEndpoint 0 (2 * Real.pi) N).map (fun a =>
          (center.1 + (r : ℝ) * Real.cos a, center.2 + (r : ℝ) * Real.sin a))).take 1),
        s) := by
    unfold shape
    rw [if_neg (by decide : ¬("polygon" : String) = "circle"),
        if_pos (rfl : ("polygon" : String) = "polygon")]
    dsimp only
    rw [if_neg (by omega : ¬N = 0)]
  have hmap : (linspaceNoEndpoint 0 (2 * Real.pi) N).map (fun a =>
      (center.1 + (r : ℝ) * Real.cos a, center.2 + (r : ℝ) * Real.sin a)) =
      (List.range N).map (fun j : ℕ =>
        (center.1 + (r : ℝ) * Real.cos (0 + (2 * Real.pi - 0) * j / (N : ℝ)),
         center.2 + (r : ℝ) * Real.sin (0 + (2 * Real.pi - 0) * j / (N : ℝ)))) := by
    unfold linspaceNoEndpoint
    rw [List.map_map]
    rfl
  obtain ⟨m, rfl⟩ : ∃ m, N = m + 1 := ⟨N - 1, by omega⟩
  rw [hmap] at hsh
  set g : ℕ → ℝ × ℝ := fun j =>
    (center.1 + (r : ℝ) * Real.cos (0 + (2 * Real.pi - 0) * j / ((m + 1 : ℕ) : ℝ)),
     center.2 + (r : ℝ) * Real.sin (0 + (2 * Real.pi - 0) * j / ((m + 1 : ℕ) : ℝ)))
    with hg
  have hcons : (List.range (m + 1)).map g = g 0 :: (List.range m).map (g ∘ Nat.succ) := by
    rw [List.range_succ_eq_map, List.map_cons, List.map_map]
  refine ⟨_, hsh, ?_, ?_, ?_⟩
  · simp only [List.length_append, List.length_map, List.length_range, List.length_take]
    omega
  · rw [hcons]
    rw [show (g 0 :: (List.range m).map (g ∘ Nat.succ)).take 1 = [g 0] from rfl]
    rw [List.getLast?_concat]
    rfl
  · intro j hj
    rw [List.get?_append
        (by simp only [List.length_map, List.length_range]; omega :
          j < ((List.range (m + 1)).map g).length),
      List.get?_map, List.get?_range hj]
    simp only [Option.map_some', hg]
    have harg : (0 : ℝ) + (2 * Real.pi - 0) * (j : ℝ) / ((m + 1 : ℕ) : ℝ) =
        2 * Real.pi * (j : ℝ) / ((m + 1 : ℕ) : ℝ) := by ring
    rw [harg]

/-- Witness for `c7_polygon` at a concrete input. -/
theorem c7_witness :
    3 ≤ 3 ∧
    ∃ l, shape ((0 : ℝ), (0 : ℝ)) 1 1000 0 "polygon" (some 3) halfRNG = (.ok l, halfRNG) ∧
      l.length = 3 + 1 ∧ l.head? = l.getLast? ∧
      ∀ j, j < 3 → l.get? j =
        some (((0 : ℝ), (0 : ℝ)).1 + ((1 : ℚ) : ℝ) * Real.cos (2 * Real.pi * j / ((3 : ℕ) : ℝ)),
              ((0 : ℝ), (0 : ℝ)).2 + ((1 : ℚ) : ℝ) * Real.sin (2 * Real.pi * j / ((3 : ℕ) : ℝ))) :=
  ⟨by norm_num, c7_polygon ((0 : ℝ), (0 : ℝ)) 1 1000 0 3 halfRNG (by norm_num)⟩

lemma luminance_mem {c : Color} (h0 : colorNonneg c) (h1 : colorLe c 1) :
    0 ≤ luminance c ∧ luminance c ≤ 1 := by
  obtain ⟨a0, a1, a2⟩ := h0
  obtain ⟨b0, b1, b2⟩ := h1
  unfold luminance
  constructor <;> linarith

/-- A constant stream at `1/2` is a valid draw stream. -/
lemma halfStreamBounded : streamBounded (fun _ => (1 : ℚ)/2) := by
  intro n
  constructor <;> norm_num

/-- Claim C4, counterexample: `generate_3d_poster` accepts the invalid
parameters `n_layers = 0` and `alpha_min = 9/10 > alpha_max = 3/5` without
raising any error, silently returning a degenerate poster with zero layers. -/
theorem c4_counterexample :
    ((generate_3d_poster (fun _ _ => 1/2) (fun _ _ => 1/2) "pastel" "blob" 0 0
        ((1 : ℚ), (1 : ℚ), (1 : ℚ)) ((0 : ℚ), (0 : ℚ), (0 : ℚ)) 0 (1/50) (3/10)
        (9/10) (3/5) 45 (3/10) (some 6) halfRNG).1).toOption.map
      (fun p => p.layers.length) = some 0 := rfl

/-- Claim C4 as amended: `generate_3d_poster` performs no parameter
validation at all: for every parameter setting — including invalid ones such
as `n_layers < 1`, alpha bounds outside `[0,1]`, or
`alpha_min > alpha_max` — it returns a complete poster without raising,
provided the module global `n_sides` is defined and nonzero; degenerate
inputs are accepted silently rather than rejected. -/
theorem c4_no_validation (pyGen npGen : ℤ → ℕ → ℚ) (style shape_type : String)
    (n_layers : ℕ) (wobble : ℚ) (background title_color : Color) (seed : ℤ)
    (shadow_offset brightness_strength alpha_min alpha_max : ℚ)
    (light_angle rotation_range : ℚ) (N : ℕ) (hN : 1 ≤ N) (s0 : RNG) :
    ∃ p s', generate_3d_poster pyGen npGen style shape_type n_layers wobble
        background title_color seed shadow_offset brightness_strength alpha_min
        alpha_max light_angle rotation_range (some N) s0 = (.ok p, s') := by
  obtain ⟨ls, s', h⟩ := buildLayers_ok shape_type N hN
    (random_palette style 20 ⟨pyGen seed, npGen seed⟩).1 wobble brightness_strength
    alpha_min alpha_max rotation_range
    ((shadow_offset : ℝ) * Real.cos (radians light_angle))
    (-(shadow_offset : ℝ) * Real.sin (radians light_angle)) n_layers n_layers 0
    (random_palette style 20 ⟨pyGen seed, npGen seed⟩).2
  simp only [generate_3d_poster]
  rw [h]
  exact ⟨_, _, rfl⟩

/-- Witness for `c4_no_validation` at a concrete (invalid) input. -/
theorem c4_witness :
    1 ≤ 6 ∧
    ∃ p s', generate_3d_poster (fun _ _ => 1/2) (fun _ _ => 1/2) "pastel" "blob" 0 0
        ((1 : ℚ), (1 : ℚ), (1 : ℚ)) ((0 : ℚ), (0 : ℚ), (0 : ℚ)) 0 (1/50) (3/10)
        (9/10) (3/5) 45 (3/10) (some 6) halfRNG = (.ok p, s') :=
  ⟨by norm_num,
   c4_no_validation (fun _ _ => 1/2) (fun _ _ => 1/2) "pastel" "blob" 0 0
     ((1 : ℚ), (1 : ℚ), (1 : ℚ)) ((0 : ℚ), (0 : ℚ), (0 : ℚ)) 0 (1/50) (3/10)
     (9/10) (3/5) 45 (3/10) 6 (by norm_num) halfRNG⟩

/-- Claim C3: the final title colour of `generate_3d_poster` either equals
the requested `title_color` (when the luminance difference to the background
is already at least `1/2`) or is pure white or pure black with luminance
difference at least `1/2` from the background, and among white/black it
attains the maximal contrast. -/
theorem c3_contrast (pyGen npGen : ℤ → ℕ → ℚ) (style shape_type : String)
    (n_layers : ℕ) (wobble : ℚ) (background title_color : Color) (seed : ℤ)
    (shadow_offset brightness_strength alpha_min alpha_max : ℚ)
    (light_angle rotation_range : ℚ) (N : ℕ) (s0 : RNG)
    (hN : 1 ≤ N) (hbg0 : colorNonneg background) (hbg1 : colorLe background 1) :
    ∃ t, ((generate_3d_poster pyGen npGen style shape_type n_layers wobble
        background title_color seed shadow_offset brightness_strength alpha_min
        alpha_max light_angle rotation_range (some N) s0).1).toOption.map
          Poster.titleColor = some t ∧
      ((1/2 ≤ |luminance title_color - luminance background| ∧ t = title_color) ∨
       (|luminance title_color - luminance background| < 1/2 ∧
        (t = ((1 : ℚ), (1 : ℚ), (1 : ℚ)) ∨ t = ((0 : ℚ), (0 : ℚ), (0 : ℚ))) ∧
        1/2 ≤ |luminance t - luminance background| ∧
        |luminance t - luminance background| =
          max |luminance ((1 : ℚ), (1 : ℚ), (1 : ℚ)) - luminance background|
              |luminance ((0 : ℚ), (0 : ℚ), (0 : ℚ)) - luminance background|)) := by
  obtain ⟨ls, s', h⟩ := buildLayers_ok shape_type N hN
    (random_palette style 20 ⟨pyGen seed, npGen seed⟩).1 wobble brightness_strength
    alpha_min alpha_max rotation_range
    ((shadow_offset : ℝ) * Real.cos (radians light_angle))
    (-(shadow_offset : ℝ) * Real.sin (radians light_angle)) n_layers n_layers 0
    (random_palette style 20 ⟨pyGen seed, npGen seed⟩).2
  refine ⟨titleAdjust background title_color, ?_, ?_⟩
  · simp only [generate_3d_poster]
    rw [h]
    rfl
  · obtain ⟨hL0, hL1⟩ := luminance_mem hbg0 hbg1
    have hw : luminance ((1 : ℚ), (1 : ℚ), (1 : ℚ)) = 1 := by norm_num [luminance]
    have hb : luminance ((0 : ℚ), (0 : ℚ), (0 : ℚ)) = 0 := by norm_num [luminance]
    unfold titleAdjust
    by_cases hlt : |luminance background - luminance title_color| < 1/2
    · rw [if_pos hlt]
      right
      have habs : |luminance title_color - luminance background| < 1/2 := by
        rwa [abs_sub_comm] at hlt
      by_cases hbglt : luminance background < 1/2
      · rw [if_pos hbglt]
        refine ⟨habs, Or.inl rfl, ?_, ?_⟩
        · rw [hw, abs_of_nonneg (by linarith : (0:ℚ) ≤ 1 - luminance background)]
          linarith
        · rw [hw, hb,
            abs_of_nonneg (by linarith : (0:ℚ) ≤ 1 - luminance background),
            show (0:ℚ) - luminance background = -(luminance background) by ring,
            abs_neg, abs_of_nonneg hL0, max_eq_left (by linarith)]
      · rw [if_neg hbglt]
        push_neg at hbglt
        refine ⟨habs, Or.inr rfl, ?_, ?_⟩
        · rw [hb,
            show (0:ℚ) - luminance background = -(luminance background) by ring,
            abs_neg, abs_of_nonneg hL0]
          linarith
        · rw [hw, hb,
            abs_of_nonneg (by linarith : (0:ℚ) ≤ 1 - luminance background),
            show (0:ℚ) - luminance background = -(luminance background) by ring,
            abs_neg, abs_of_nonneg hL0, max_eq_right (by linarith)]
    · rw [if_neg hlt]
      left
      refine ⟨?_, rfl⟩
      rw [abs_sub_comm] at hlt
      push_neg at hlt
      exact hlt

/-- Witness for `c3_contrast` at a concrete input (black text requested on a
black background: the title is overridden with white). -/
theorem c3_witness :
    1 ≤ 3 ∧ colorNonneg ((0 : ℚ), (0 : ℚ), (0 : ℚ)) ∧
      colorLe ((0 : ℚ), (0 : ℚ), (0 : ℚ)) 1 ∧
    ∃ t, ((generate_3d_poster (fun _ _ => 1/2) (fun _ _ => 1/2) "pastel" "blob" 0 0
        ((0 : ℚ), (0 : ℚ), (0 : ℚ)) ((0 : ℚ), (0 : ℚ), (0 : ℚ)) 0 (1/50) (3/10)
        (3/5) (9/10) 45 (3/10) (some 3) halfRNG).1).toOption.map
          Poster.titleColor = some t ∧
      ((1/2 ≤ |luminance ((0 : ℚ), (0 : ℚ), (0 : ℚ)) -
          luminance ((0 : ℚ), (0 : ℚ), (0 : ℚ))| ∧ t = ((0 : ℚ), (0 : ℚ), (0 : ℚ))) ∨
       (|luminance ((0 : ℚ), (0 : ℚ), (0 : ℚ)) -
          luminance ((0 : ℚ), (0 : ℚ), (0 : ℚ))| < 1/2 ∧
        (t = ((1 : ℚ), (1 : ℚ), (1 : ℚ)) ∨ t = ((0 : ℚ), (0 : ℚ), (0 : ℚ))) ∧
        1/2 ≤ |luminance t - luminance ((0 : ℚ), (0 : ℚ), (0 : ℚ))| ∧
        |luminance t - luminance ((0 : ℚ), (0 : ℚ), (0 : ℚ))| =
          max |luminance ((1 : ℚ), (1 : ℚ), (1 : ℚ)) -
                luminance ((0 : ℚ), (0 : ℚ), (0 : ℚ))|
              |luminance ((0 : ℚ), (0 : ℚ), (0 : ℚ)) -
                luminance ((0 : ℚ), (0 : ℚ), (0 : ℚ))|)) :=
  ⟨by norm_num, ⟨by norm_num, by norm_num, by norm_num⟩, ⟨by norm_num, by norm_num, by norm_num⟩,
   c3_contrast (fun _ _ => 1/2) (fun _ _ => 1/2) "pastel" "blob" 0 0
     ((0 : ℚ), (0 : ℚ), (0 : ℚ)) ((0 : ℚ), (0 : ℚ), (0 : ℚ)) 0 (1/50) (3/10)
     (3/5) (9/10) 45 (3/10) 3 halfRNG (by norm_num)
     ⟨by norm_num, by norm_num, by norm_num⟩ ⟨by norm_num, by norm_num, by norm_num⟩⟩

/-- Claim C8: every drawn layer `i` of `generate_3d_poster` has fill colour
equal to its assigned palette colour scaled by `0.7 +
brightness_strength*(i/n_layers)` and clamped to `[0,1]` (so each channel
lies in `[0,1]`), the assigned colour comes from the palette, and the fill
alpha lies in `[alpha_min, alpha_max]`. -/
theorem c8_layer (pyGen npGen : ℤ → ℕ → ℚ) (style shape_type : String)
    (n_layers : ℕ) (wobble : ℚ) (background title_color : Color) (seed : ℤ)
    (shadow_offset brightness_strength alpha_min alpha_max : ℚ)
    (light_angle rotation_range : ℚ) (N : ℕ) (s0 : RNG) (i : ℕ)
    (hpy : streamBounded (pyGen seed)) (hnp : streamBounded (npGen seed))
    (hab : alpha_min ≤ alpha_max) (hN : 1 ≤ N) (hi : i < n_layers) :
    ∃ p, (generate_3d_poster pyGen npGen style shape_type n_layers wobble
        background title_color seed shadow_offset brightness_strength alpha_min
        alpha_max light_angle rotation_range (some N) s0).1 = .ok p ∧
      ∃ L, p.layers.get? i = some L ∧
        L.base ∈ p.palette ∧
        L.color = clipColor (colorScale L.base
          (7/10 + brightness_strength * ((i : ℚ) / (n_layers : ℚ)))) ∧
        colorNonneg L.color ∧ colorLe L.color 1 ∧
        alpha_min ≤ L.alpha ∧ L.alpha ≤ alpha_max := by
  have hsb : RNG.Bounded ⟨pyGen seed, npGen seed⟩ := ⟨hpy, hnp⟩
  have hs1 : RNG.Bounded (random_palette style 20 ⟨pyGen seed, npGen seed⟩).2 :=
    random_palette_bounded style 20 hsb
  have hpal : 1 ≤ (random_palette style 20 ⟨pyGen seed, npGen seed⟩).1.length := by
    rw [random_palette_length]
    norm_num
  obtain ⟨ls, s', h, hlen, hspec⟩ := buildLayers_spec shape_type N hN
    (random_palette style 20 ⟨pyGen seed, npGen seed⟩).1 hpal wobble
    brightness_strength alpha_min alpha_max rotation_range hab
    ((shadow_offset : ℝ) * Real.cos (radians light_angle))
    (-(shadow_offset : ℝ) * Real.sin (radians light_angle)) n_layers n_layers 0
    (random_palette style 20 ⟨pyGen seed, npGen seed⟩).2 hs1
  have hil : i < ls.length := by rw [hlen]; exact hi
  obtain ⟨L, hL⟩ : ∃ L, ls.get? i = some L := ⟨_, List.get?_eq_get hil⟩
  obtain ⟨hbase, hcol, ha1, ha2⟩ := hspec i L hL
  rw [Nat.zero_add] at hcol
  refine ⟨⟨(random_palette style 20 ⟨pyGen seed, npGen seed⟩).1, ls,
    titleAdjust background title_color⟩, ?_, L, hL, hbase, hcol, ?_, ?_, ha1, ha2⟩
  · simp only [generate_3d_poster]
    rw [h]
  · rw [hcol]
    exact (clipColor_bounds _).1
  · rw [hcol]
    exact (clipColor_bounds _).2

/-- Witness for `c8_layer` at a concrete input. -/
theorem c8_witness :
    streamBounded (fun _ => (1 : ℚ)/2) ∧ (3 : ℚ)/5 ≤ 9/10 ∧ 1 ≤ 3 ∧ 0 < 1 ∧
    ∃ p, (generate_3d_poster (fun _ _ => 1/2) (fun _ _ => 1/2) "pastel" "blob" 1 0
        ((1 : ℚ), (1 : ℚ), (1 : ℚ)) ((0 : ℚ), (0 : ℚ), (0 : ℚ)) 0 (1/50) (3/10)
        (3/5) (9/10) 45 (3/10) (some 3) halfRNG).1 = .ok p ∧
      ∃ L, p.layers.get? 0 = some L ∧
        L.base ∈ p.palette ∧
        L.color = clipColor (colorScale L.base
          (7/10 + (3/10) * (((0 : ℕ) : ℚ) / ((1 : ℕ) : ℚ)))) ∧
        colorNonneg L.color ∧ colorLe L.color 1 ∧
        (3 : ℚ)/5 ≤ L.alpha ∧ L.alpha ≤ 9/10 :=
  ⟨halfStreamBounded, by norm_num, by norm_num, by norm_num,
   c8_layer (fun _ _ => 1/2) (fun _ _ => 1/2) "pastel" "blob" 1 0
     ((1 : ℚ), (1 : ℚ), (1 : ℚ)) ((0 : ℚ), (0 : ℚ), (0 : ℚ)) 0 (1/50) (3/10)
     (3/5) (9/10) 45 (3/10) 3 halfRNG 0 halfStreamBounded halfStreamBounded
     (by norm_num) (by norm_num) (by norm_num)⟩
